import Mathlib

/-!
Shallow embedding of the telemetry core of gpu_monitor.py: the per-device
metric read (GPUMonitorThread.run, lines 65-185), the memory reconciliation
against the optional nvitop source, the fan-speed fallback chain, and the
temperature trend detector (GPUCard.update_data, lines 391-443).

External vendor calls (pynvml, nvitop) are modelled as explicit query
results: a query that may raise a Python exception becomes a value of type
Except Unit α supplied by the environment.  Byte quantities are Nat; the
source's // (1024**2) is Nat division by 1048576.  Power is kept in the raw
milliwatt unit returned by the driver (the source divides by 1000.0 only to
render watts as a float; no claim depends on that scaling).
-/

namespace GpuMon

/-- Mirror of class GPUInfo (gpu_monitor.py lines 39-53). -/
structure GPUInfo where
  index : Nat
  name : String
  utilization_gpu : Nat
  utilization_memory : Nat
  memory_used : Nat
  memory_total : Nat
  temperature : Int
  power_usage : Nat
  power_limit : Nat
  fan_speed : Nat
  fan_speeds : List Nat
  processes : List (Nat × Nat)
deriving DecidableEq, Repr

/-! ## Fan speed fallback chain (lines 129-155) -/

/-- The for-loop over fan indices (lines 135-146): for each index try the
v2 per-fan query; on its failure try the legacy single-value query, and if
that succeeds append its value and break; if both fail, skip the index and
continue. -/
def collectFans (v2 : Nat → Except Unit Nat) (lg : Except Unit Nat) :
    List Nat → List Nat
  | [] => []
  | i :: rest =>
    match v2 i with
    | .ok s => s :: collectFans v2 lg rest
    | .error _ =>
      match lg with
      | .ok s => [s]
      | .error _ => collectFans v2 lg rest

/-- Lines 129-155: returns (fan_speed, fan_speeds).  When the fan-count
query succeeds, the collected list is used, but an empty collection is
replaced by [0] (line 147) while fan_speed reads the pre-replacement local
list (line 148).  When the count query raises, the legacy query is used,
and a legacy value v yields [v] only when v > 0 (line 152).  When the
legacy query also raises, the outer handler (lines 153-155) yields (0, []). -/
def fanRead (numFans : Except Unit Nat) (v2 : Nat → Except Unit Nat)
    (lg : Except Unit Nat) : Nat × List Nat :=
  match numFans with
  | .ok n =>
    let speeds := collectFans v2 lg (List.range n)
    (speeds.headD 0, if speeds = [] then [0] else speeds)
  | .error _ =>
    match lg with
    | .ok v => (v, if 0 < v then [v] else [])
    | .error _ => (0, [])

/-! ## Per-device read (lines 82-170) -/

/-- Environment for the three fan-related vendor queries of one read. -/
structure FanEnv where
  numFans : Except Unit Nat
  fanV2 : Nat → Except Unit Nat
  legacy : Except Unit Nat

/-- Environment of vendor query results for one device in one cycle.
nameQ also stands for nvmlDeviceGetHandleByIndex (line 83), which is
likewise unguarded. -/
structure DevEnv where
  nameQ : Except Unit String
  utilQ : Except Unit (Nat × Nat)
  memStd : Except Unit (Nat × Nat)
  tempQ : Except Unit Int
  powerUsageQ : Except Unit Nat
  powerLimitQ : Except Unit Nat
  fan : FanEnv
  procQ : Except Unit (List (Nat × Nat))

/-- Lines 116-119: temperature with safe default 0. -/
def tempOrZero : Except Unit Int → Int
  | .ok v => v
  | .error _ => 0

/-- Lines 121-127: usage then limit fetched in one try block; if either
raises, both are set to 0. -/
def powerRead (u l : Except Unit Nat) : Nat × Nat :=
  match u with
  | .error _ => (0, 0)
  | .ok pu =>
    match l with
    | .error _ => (0, 0)
    | .ok pl => (pu, pl)

/-- Lines 157-168: process list with per-process memory in MB, empty on
failure. -/
def procsMB : Except Unit (List (Nat × Nat)) → List (Nat × Nat)
  | .ok ps => ps.map (fun p => (p.1, p.2 / 1048576))
  | .error _ => []

/-- Bytes-to-MB conversion of the standard memory reading (lines 111-113);
a failure of nvmlDeviceGetMemoryInfo is NOT guarded and propagates. -/
def stdMB : Except Unit (Nat × Nat) → Except Unit (Nat × Nat)
  | .ok ut => .ok (ut.1 / 1048576, ut.2 / 1048576)
  | .error e => .error e

/-- Memory reconciliation (lines 96-113).  First component: the resulting
(used MB, total MB) or a propagated error; second component: how many times
the alternate (nvitop) per-device memory query was invoked.  The alternate
source is consulted only when the device list is present and the index is
in range; its failure falls back to the standard reading. -/
def reconcileMem (nds : Option (List (Except Unit (Nat × Nat)))) (i : Nat)
    (memStd : Except Unit (Nat × Nat)) :
    Except Unit (Nat × Nat) × Nat :=
  match nds with
  | none => (stdMB memStd, 0)
  | some ds =>
    match ds[i]? with
    | some (.ok ut) => (.ok (ut.1 / 1048576, ut.2 / 1048576), 1)
    | some (.error _) => (stdMB memStd, 1)
    | none => (stdMB memStd, 0)

/-- One device read (lines 82-170).  Failures of the name, utilization or
(when the alternate path does not apply) standard memory query are not
caught inside the loop body and so abort the read; temperature, power, fan
and process queries are individually guarded with safe defaults. -/
def readDevice (nds : Option (List (Except Unit (Nat × Nat)))) (i : Nat)
    (e : DevEnv) : Except Unit GPUInfo :=
  match e.nameQ with
  | .error u => .error u
  | .ok nm =>
    match e.utilQ with
    | .error u => .error u
    | .ok ut =>
      match (reconcileMem nds i e.memStd).1 with
      | .error u => .error u
      | .ok mem =>
        .ok { index := i, name := nm
            , utilization_gpu := ut.1, utilization_memory := ut.2
            , memory_used := mem.1, memory_total := mem.2
            , temperature := tempOrZero e.tempQ
            , power_usage := (powerRead e.powerUsageQ e.powerLimitQ).1
            , power_limit := (powerRead e.powerUsageQ e.powerLimitQ).2
            , fan_speed := (fanRead e.fan.numFans e.fan.fanV2 e.fan.legacy).1
            , fan_speeds := (fanRead e.fan.numFans e.fan.fanV2 e.fan.legacy).2
            , processes := procsMB e.procQ }

/-- The for-loop of one cycle (lines 82-170) starting at device index i:
an unisolated failure in any device read propagates and aborts the cycle. -/
def runCycleFrom (nds : Option (List (Except Unit (Nat × Nat)))) (i : Nat) :
    List DevEnv → Except Unit (List GPUInfo)
  | [] => .ok []
  | e :: rest =>
    match readDevice nds i e with
    | .error u => .error u
    | .ok g =>
      match runCycleFrom nds (i + 1) rest with
      | .error u => .error u
      | .ok gs => .ok (g :: gs)

/-- One full sample cycle over the listed device environments. -/
def runCycle (nds : Option (List (Except Unit (Nat × Nat))))
    (envs : List DevEnv) : Except Unit (List GPUInfo) :=
  runCycleFrom nds 0 envs

/-! ## Trend detector (GPUCard.update_data, lines 391-443) -/

/-- The trend state held by a GPUCard: temperature_history,
base_temperature, is_animating (lines 197-199). -/
structure GPUCardState where
  temperature_history : List Int
  base_temperature : Int
  is_animating : Bool
deriving DecidableEq, Repr

/-- Lines 396-398: append the reading, then pop the front once the history
exceeds 10 entries. -/
def pushHistory (h : List Int) (t : Int) : List Int :=
  let h2 := h ++ [t]
  if 10 < h2.length then h2.tail else h2

/-- Lines 411-415: the loop for i in range(1, min(3, len(history))) sets
is_rising to False when history[i] <= history[i-1]; it therefore tests the
FIRST up-to-three entries of the history for strict increase. -/
def risingCheck : List Int → Bool
  | a :: b :: c :: _ => decide (a < b) && decide (b < c)
  | [a, b] => decide (a < b)
  | _ => true

/-- Lines 424-428: same loop shape with >=, testing the FIRST up-to-three
entries for strict decrease. -/
def fallingCheck : List Int → Bool
  | a :: b :: c :: _ => decide (b < a) && decide (c < b)
  | [a, b] => decide (b < a)
  | _ => true

/-- GPUCard.update_data restricted to its trend-state effect
(lines 391-436). -/
def update_data (s : GPUCardState) (t : Int) : GPUCardState :=
  let hist := pushHistory s.temperature_history t
  if 2 ≤ hist.length then
    let temp_change := t - s.base_temperature
    let single_change := t - hist.getD (hist.length - 2) 0
    if s.is_animating then
      if (temp_change ≤ -5 ∧ fallingCheck hist = true) ∨ single_change ≤ -3
      then ⟨hist, t, false⟩
      else ⟨hist, s.base_temperature, s.is_animating⟩
    else
      if 5 ≤ temp_change ∧ (risingCheck hist = true ∨ 3 ≤ single_change)
      then ⟨hist, t, true⟩
      else ⟨hist, s.base_temperature, s.is_animating⟩
  else ⟨hist, s.base_temperature, s.is_animating⟩

/-- GPUCard.__init__ (lines 197-199): empty history, baseline taken from
the constructing snapshot's temperature, animation off. -/
def newCard (t0 : Int) : GPUCardState := ⟨[], t0, false⟩

/-- Feed a sequence of temperature readings through update_data. -/
def feedAll (s : GPUCardState) (ts : List Int) : GPUCardState :=
  ts.foldl update_data s

/-- Modelled from the spec's words (§4.4): "the last up-to-3 history
entries are strictly monotonically increasing". -/
def strictIncList : List Int → Bool
  | a :: b :: r => decide (a < b) && strictIncList (b :: r)
  | _ => true

/-- Modelled from the spec's words (§4.4): "the last up-to-3 entries are
strictly monotonically decreasing". -/
def strictDecList : List Int → Bool
  | a :: b :: r => decide (b < a) && strictDecList (b :: r)
  | _ => true

/-- Spec-side check on the last up-to-three history entries (increase). -/
def specLastInc3 (h : List Int) : Bool :=
  strictIncList (h.drop (h.length - 3))

/-- Spec-side check on the last up-to-three history entries (decrease). -/
def specLastDec3 (h : List Int) : Bool :=
  strictDecList (h.drop (h.length - 3))

/-! ## Monitor loop lifecycle (GPUMonitorThread.run, lines 65-185) -/

/-- Observable steps of one run of the monitor thread. -/
inductive Event where
  | initOk
  | initFail
  | cycleRaise
  | emit
  | sleep
  | stopObserved
  | shutdownAttempt
deriving DecidableEq, Repr

/-- Environment of one loop iteration: the optional nvitop device list
(lines 75-80, with its own failures folded into none) and the vendor query
results for each device index. -/
structure CycleEnv where
  nvitopDevs : Option (List (Except Unit (Nat × Nat)))
  devs : Nat → DevEnv

/-- The while-loop (lines 71-173) over the iterations executed before the
running flag is observed false.  A cycle whose unisolated queries raise
escapes to the outer handler (line 175) and then the finally block; a
normal cycle emits the list and sleeps; exhausting the list stands for
observing stop(). -/
def monitorLoop (n : Nat) : List CycleEnv → List Event
  | [] => [Event.stopObserved, Event.shutdownAttempt]
  | c :: rest =>
    match runCycle c.nvitopDevs ((List.range n).map c.devs) with
    | .error _ => [Event.cycleRaise, Event.shutdownAttempt]
    | .ok _ => Event.emit :: Event.sleep :: monitorLoop n rest

/-- Lines 65-185: initRes is the combined outcome of nvmlInit and
nvmlDeviceGetCount (either raising lands in the outer except handler and
then the finally block). -/
def runMonitor (initRes : Except Unit Nat) (cenvs : List CycleEnv) :
    List Event :=
  match initRes with
  | .error _ => [Event.initFail, Event.shutdownAttempt]
  | .ok n => Event.initOk :: monitorLoop n cenvs

/-- Number of shutdown attempts in a trace. -/
def countShutdown : List Event → Nat
  | [] => 0
  | Event.shutdownAttempt :: r => countShutdown r + 1
  | _ :: r => countShutdown r

/-- Lines 178-181: the nvmlShutdown call wrapped in try/except pass — any
outcome of the underlying call results in normal completion. -/
def safeShutdown : Except Unit Unit → Except Unit Unit
  | .ok _ => .ok ()
  | .error _ => .ok ()

/-! ## Concrete environments used by witnesses and counterexamples -/

/-- A device environment in which every vendor query succeeds. -/
def goodEnv : DevEnv :=
  { nameQ := .ok "NVIDIA GeForce RTX 4090"
  , utilQ := .ok (55, 40)
  , memStd := .ok (3145728, 25165824)
  , tempQ := .ok 65
  , powerUsageQ := .ok 150000
  , powerLimitQ := .ok 450000
  , fan := { numFans := .ok 2, fanV2 := fun i => .ok (40 + i)
           , legacy := .error () }
  , procQ := .ok [(1234, 2097152)] }

/-- The snapshot readDevice produces from goodEnv at index 0. -/
def gGood : GPUInfo :=
  { index := 0, name := "NVIDIA GeForce RTX 4090"
  , utilization_gpu := 55, utilization_memory := 40
  , memory_used := 3, memory_total := 24
  , temperature := 65, power_usage := 150000, power_limit := 450000
  , fan_speed := 40, fan_speeds := [40, 41]
  , processes := [(1234, 2)] }

/-- goodEnv with the name query raising. -/
def badNameEnv : DevEnv := { goodEnv with nameQ := .error () }

/-- goodEnv with the temperature, process and power-limit queries raising. -/
def flakyEnv : DevEnv :=
  { goodEnv with tempQ := .error (), procQ := .error ()
               , powerLimitQ := .error () }

/-! ## Helper lemmas -/

/-- The scalar fan_speed always equals the head of fan_speeds (0 when
empty), across all branches of the fallback chain. -/
lemma fanRead_head (nf : Except Unit Nat) (v2 : Nat → Except Unit Nat)
    (lg : Except Unit Nat) :
    (fanRead nf v2 lg).1 = (fanRead nf v2 lg).2.headD 0 := by
  cases nf with
  | ok n =>
    simp only [fanRead]
    cases h : collectFans v2 lg (List.range n) <;> simp [h]
  | error u =>
    cases lg with
    | ok v => cases v <;> simp [fanRead]
    | error u2 => rfl

/-- When the per-fan v2 query succeeds on every index of the list, the
collection loop returns exactly those values in order. -/
lemma collectFans_map (v2 : Nat → Except Unit Nat) (lg : Except Unit Nat)
    (f : Nat → Nat) (l : List Nat)
    (h : ∀ i ∈ l, v2 i = Except.ok (f i)) :
    collectFans v2 lg l = l.map f := by
  induction l with
  | nil => rfl
  | cons a r ih =>
    have ha := h a (List.mem_cons_self a r)
    simp [collectFans, ha, ih (fun i hi => h i (List.mem_cons_of_mem a hi))]

/-- The reconciled memory pair respects used ≤ total whenever every source
that can supply it does. -/
lemma reconcile_le (nds : Option (List (Except Unit (Nat × Nat)))) (i : Nat)
    (std : Except Unit (Nat × Nat)) (m : Nat × Nat)
    (hstd : ∀ u t, std = Except.ok (u, t) → u ≤ t)
    (hnv : ∀ (ds : List (Except Unit (Nat × Nat))) (j u t : Nat),
      nds = some ds → ds[j]? = some (Except.ok (u, t)) → u ≤ t)
    (hok : (reconcileMem nds i std).1 = Except.ok m) : m.1 ≤ m.2 := by
  have hstd2 : stdMB std = Except.ok m → m.1 ≤ m.2 := by
    intro hs
    cases hstd3 : std with
    | error u => rw [hstd3] at hs; exact absurd hs (by simp [stdMB])
    | ok ut =>
      rw [hstd3] at hs
      simp only [stdMB, Except.ok.injEq] at hs
      rw [← hs]
      exact Nat.div_le_div_right (hstd ut.1 ut.2 (by rw [hstd3]))
  cases nds with
  | none => exact hstd2 hok
  | some ds =>
    simp only [reconcileMem] at hok
    cases hg : ds[i]? with
    | none => rw [hg] at hok; exact hstd2 hok
    | some x =>
      cases x with
      | error u => rw [hg] at hok; exact hstd2 hok
      | ok ut =>
        rw [hg] at hok
        simp only [Except.ok.injEq] at hok
        rw [← hok]
        exact Nat.div_le_div_right (hnv ds i ut.1 ut.2 rfl hg)

/-- The sampler loop always terminates with exactly one shutdown attempt
as its final event. -/
lemma monitorLoop_shutdown (n : Nat) (cenvs : List CycleEnv) :
    ∃ pre, monitorLoop n cenvs = pre ++ [Event.shutdownAttempt]
      ∧ countShutdown pre = 0 := by
  induction cenvs with
  | nil => exact ⟨[Event.stopObserved], rfl, rfl⟩
  | cons c rest ih =>
    cases hc : runCycle c.nvitopDevs ((List.range n).map c.devs) with
    | error u => exact ⟨[Event.cycleRaise], by simp [monitorLoop, hc], rfl⟩
    | ok gs =>
      obtain ⟨pre, h1, h2⟩ := ih
      exact ⟨Event.emit :: Event.sleep :: pre, by simp [monitorLoop, hc, h1],
        h2⟩

/-! ## Claims -/

/-- C1 counterexample: when the fan-count query succeeds with zero fans
(so neither the multi-fan nor the legacy API yields a reading), the code
produces fan_speeds = [0], not [] — the empty list IS replaced by [0]
(line 147); and when only the legacy API succeeds with reading 0 the code
produces [], not [0]. -/
theorem fan_list_counterexample :
    (fanRead (Except.ok 0) (fun _ => Except.error ())
      (Except.error ())).2 = [0]
    ∧ (fanRead (Except.ok 0) (fun _ => Except.error ())
      (Except.error ())).2 ≠ ([] : List Nat)
    ∧ (fanRead (Except.error ()) (fun _ => Except.error ())
      (Except.ok 0)).2 = [] := by
  refine ⟨rfl, by decide, rfl⟩

/-- C1 amended: fan_speeds is [] exactly when the count query and the
legacy query both fail, or when the count query fails and the legacy value
is 0; a positive legacy value v gives [v]; when the count query succeeds
the per-fan v2 readings are returned in physical order provided they all
succeed, but an empty collection (in particular a zero fan count) is
replaced by [0]; and when the first v2 read fails, a successful legacy
read terminates the list with its single value. -/
theorem fanRead_cases (v2 : Nat → Except Unit Nat) (lg : Except Unit Nat)
    (f : Nat → Nat) (n v : Nat) :
    (fanRead (Except.error ()) v2 (Except.error ())).2 = []
    ∧ (0 < v → (fanRead (Except.error ()) v2 (Except.ok v)).2 = [v])
    ∧ (fanRead (Except.error ()) v2 (Except.ok 0)).2 = []
    ∧ ((∀ i, i < n → v2 i = Except.ok (f i)) →
        (fanRead (Except.ok n) v2 lg).2 =
          if n = 0 then [0] else (List.range n).map f)
    ∧ (0 < n → v2 0 = Except.error () →
        (fanRead (Except.ok n) v2 (Except.ok v)).2 = [v]) := by
  refine ⟨rfl, ?_, rfl, ?_, ?_⟩
  · intro hv
    simp [fanRead, hv]
  · intro hall
    have hmap : collectFans v2 lg (List.range n) = (List.range n).map f :=
      collectFans_map v2 lg f (List.range n)
        (fun i hi => hall i (List.mem_range.mp hi))
    cases n with
    | zero => rfl
    | succ k =>
      have hne : (List.range (k + 1)).map f ≠ [] := by
        simp [List.range_succ]
      simp [fanRead, hmap, hne]
  · intro hn h0
    cases n with
    | zero => exact absurd hn (by decide)
    | succ k =>
      have hc : collectFans v2 (Except.ok v) (List.range (k + 1)) = [v] := by
        rw [List.range_succ_eq_map]
        simp [collectFans, h0]
      simp [fanRead, hc]

/-- C1 witness: two fans read through v2 give their per-fan values in
order; a legacy-only read of 55 gives the one-element list. -/
theorem fanRead_cases_witness :
    (fanRead (Except.ok 2) (fun i => Except.ok (30 + i))
      (Except.error ())).2 = [30, 31]
    ∧ (fanRead (Except.error ()) (fun _ => Except.error ())
      (Except.ok 55)).2 = [55] := by
  constructor
  · have h := (fanRead_cases (fun i => Except.ok (30 + i)) (Except.error ())
      (fun i => 30 + i) 2 0).2.2.2.1 (fun i hi => rfl)
    exact h.trans rfl
  · exact (fanRead_cases (fun _ => Except.error ()) (Except.error ())
      id 0 55).2.1 (by decide)

/-- C2 counterexample: in a two-device cycle in which device 0's name
query raises (an unguarded query, line 88) and every query of device 1
succeeds, the whole cycle aborts with no snapshot list — device 1 does not
receive its normally fetched values, falsifying the claim that every
metric is fetched independently.  The same device-1 environment alone
produces a full snapshot. -/
theorem cycle_aborts_on_name_failure :
    runCycle none [badNameEnv, goodEnv] = Except.error ()
    ∧ runCycle none [goodEnv, goodEnv] =
        Except.ok [gGood, { gGood with index := 1 }] :=
  ⟨rfl, rfl⟩

/-- C2 amended: only the temperature, power, fan and process-list queries
are independently isolated with safe defaults (0 / empty); each of those
fields is a function of its own query alone, so a failure there affects
that metric only; but the read succeeds at all only when the name and
utilization queries succeed and the reconciled memory is available. -/
theorem read_device_isolation (nds : Option (List (Except Unit (Nat × Nat))))
    (i : Nat) (e : DevEnv) (nm : String) (ut : Nat × Nat) (m : Nat × Nat)
    (h1 : e.nameQ = Except.ok nm) (h2 : e.utilQ = Except.ok ut)
    (h3 : (reconcileMem nds i e.memStd).1 = Except.ok m) :
    readDevice nds i e = Except.ok
      { index := i, name := nm
      , utilization_gpu := ut.1, utilization_memory := ut.2
      , memory_used := m.1, memory_total := m.2
      , temperature := tempOrZero e.tempQ
      , power_usage := (powerRead e.powerUsageQ e.powerLimitQ).1
      , power_limit := (powerRead e.powerUsageQ e.powerLimitQ).2
      , fan_speed := (fanRead e.fan.numFans e.fan.fanV2 e.fan.legacy).1
      , fan_speeds := (fanRead e.fan.numFans e.fan.fanV2 e.fan.legacy).2
      , processes := procsMB e.procQ }
    ∧ tempOrZero (Except.error ()) = 0
    ∧ procsMB (Except.error ()) = []
    ∧ (∀ l, powerRead (Except.error ()) l = (0, 0))
    ∧ (∀ u, powerRead u (Except.error ()) = (0, 0)) := by
  refine ⟨?_, rfl, rfl, fun l => rfl, fun u => ?_⟩
  · simp [readDevice, h1, h2, h3]
  · cases u <;> rfl

/-- C2 witness: with temperature, process and power-limit queries raising,
the device read still succeeds and only those metrics fall to their
defaults while name, utilization, memory and fan values are unaffected. -/
theorem read_device_isolation_witness :
    readDevice none 0 flakyEnv = Except.ok
      { index := 0, name := "NVIDIA GeForce RTX 4090"
      , utilization_gpu := 55, utilization_memory := 40
      , memory_used := 3, memory_total := 24
      , temperature := 0, power_usage := 0, power_limit := 0
      , fan_speed := 40, fan_speeds := [40, 41], processes := [] } := by
  have h := (read_device_isolation none 0 flakyEnv
    "NVIDIA GeForce RTX 4090" (55, 40) (3, 24) rfl rfl rfl).1
  exact h.trans rfl

/-- C3: the code is wrong where the claim (and the code's own comment,
which says it checks whether the most recent values are rising) is right:
the monotonicity loop indexes history[1], history[2] from the FRONT of the
history.  Failing input: a card constructed at temperature 41 fed
50, 40, 41, 44, 46.  At reading 46 the delta from baseline is 5 and the
last three entries 41, 44, 46 are strictly increasing, so per the claim
rising mode must begin; the code inspects the oldest entries 50, 40, 41
instead and stays out of rising mode.  The spec's own example sequence
40, 41, 43, 46 from baseline 40 (where the first three and last three
entries coincide) does enter rising mode with baseline reset to 46. -/
theorem trend_rising_checks_oldest_entries :
    (feedAll (newCard 41) [50, 40, 41, 44, 46]).is_animating = false
    ∧ (feedAll (newCard 41) [50, 40, 41, 44]).is_animating = false
    ∧ (feedAll (newCard 41) [50, 40, 41, 44]).base_temperature = 41
    ∧ specLastInc3
        (feedAll (newCard 41) [50, 40, 41, 44, 46]).temperature_history
        = true
    ∧ (feedAll (newCard 40) [40, 41, 43, 46]).is_animating = true
    ∧ (feedAll (newCard 40) [40, 41, 43, 46]).base_temperature = 46 := by
  decide

/-- C4 counterexample: a detector with baseline 40 fed 40 then 44 does NOT
enter rising mode, because delta_from_baseline = 4 < 5 and the code gates
every entry on that threshold (line 409) before the single-jump test. -/
theorem trend_jump_counterexample :
    (feedAll (newCard 40) [40, 44]).is_animating = false
    ∧ (44 : Int) - 40 ≥ 3 := by
  decide

/-- C4 amended: feeding 40 then 44 leaves the detector out of rising mode
(delta_from_baseline = 4 < 5); a single jump enters rising mode
immediately with only two data points once it also moves at least 5 from
the baseline: feeding 40 then 45 enters rising mode and resets the
baseline to 45. -/
theorem trend_jump_amended :
    (feedAll (newCard 40) [40, 45]).is_animating = true
    ∧ (feedAll (newCard 40) [40, 45]).base_temperature = 45
    ∧ (feedAll (newCard 40) [40, 45]).temperature_history = [40, 45] := by
  decide

/-- C5: same front-indexing slip as C3, on the exit path.  Failing input:
a card constructed at temperature 40 fed 40, 50 (entering rising mode with
baseline 50) then 49, 47, 45.  At reading 45 the delta from baseline is -5
and the last three entries 49, 47, 45 are strictly decreasing, so per the
claim rising mode must end; the code inspects the oldest entries
40, 50, 49 and stays in rising mode.  The claim's concrete example does
hold: from rising mode with baseline 46, feeding 44 then 41 exits at 41
(via the single-step drop 41 - 44 = -3) and resets the baseline to 41. -/
theorem trend_falling_checks_oldest_entries :
    (feedAll (newCard 40) [40, 50, 49, 47]).is_animating = true
    ∧ (feedAll (newCard 40) [40, 50, 49, 47]).base_temperature = 50
    ∧ (feedAll (newCard 40) [40, 50, 49, 47, 45]).is_animating = true
    ∧ specLastDec3
        (feedAll (newCard 40) [40, 50, 49, 47, 45]).temperature_history
        = true
    ∧ (feedAll (newCard 40) [40, 46, 44, 41]).is_animating = false
    ∧ (feedAll (newCard 40) [40, 46, 44, 41]).base_temperature = 41 := by
  decide

/-- C6: memory reconciliation queries the alternate (nvitop) source at
most once per device read, uses its used/total figures (converted to MB)
when the device index is in range and the query succeeds, and falls back
to the standard reading when the source is absent, the index is out of
range, or the per-device query fails. -/
theorem reconcile_at_most_once
    (nds : Option (List (Except Unit (Nat × Nat)))) (i : Nat)
    (std : Except Unit (Nat × Nat)) :
    (reconcileMem nds i std).2 ≤ 1
    ∧ (∀ ds u t, nds = some ds → ds[i]? = some (Except.ok (u, t)) →
        (reconcileMem nds i std).1 = Except.ok (u / 1048576, t / 1048576))
    ∧ (nds = none → reconcileMem nds i std = (stdMB std, 0))
    ∧ (∀ ds, nds = some ds → ds.length ≤ i →
        reconcileMem nds i std = (stdMB std, 0))
    ∧ (∀ ds, nds = some ds → ds[i]? = some (Except.error ()) →
        reconcileMem nds i std = (stdMB std, 1)) := by
  refine ⟨?_, ?_, ?_, ?_, ?_⟩
  · cases nds with
    | none => exact Nat.zero_le 1
    | some ds =>
      simp only [reconcileMem]
      cases hg : ds[i]? with
      | none => exact Nat.zero_le 1
      | some x => cases x <;> simp
  · intro ds u t hnds hget
    subst hnds
    simp [reconcileMem, hget]
  · intro h
    subst h
    rfl
  · intro ds h hlen
    subst h
    have hnone : ds[i]? = none := List.getElem?_eq_none hlen
    simp [reconcileMem, hnone]
  · intro ds h hget
    subst h
    simp [reconcileMem, hget]

/-- C6 witness: a one-device alternate list with 2 MB used of 4 MB total
is preferred over a standard reading that would even have failed. -/
theorem reconcile_at_most_once_witness :
    (reconcileMem (some [Except.ok (2097152, 4194304)]) 0
      (Except.error ())).1 = Except.ok (2, 4) := by
  have h := (reconcile_at_most_once (some [Except.ok (2097152, 4194304)]) 0
    (Except.error ())).2.1 [Except.ok (2097152, 4194304)] 2097152 4194304
    rfl rfl
  exact h.trans rfl

/-- C7: whenever every memory source that can supply a reading reports
used ≤ total (the vendor contract), any snapshot produced by a device
read satisfies memory_used ≤ memory_total; in particular whenever
memory_total is positive. -/
theorem mem_used_le_total (nds : Option (List (Except Unit (Nat × Nat))))
    (i : Nat) (e : DevEnv) (g : GPUInfo)
    (hstd : ∀ u t, e.memStd = Except.ok (u, t) → u ≤ t)
    (hnv : ∀ (ds : List (Except Unit (Nat × Nat))) (j u t : Nat),
      nds = some ds → ds[j]? = some (Except.ok (u, t)) → u ≤ t)
    (hread : readDevice nds i e = Except.ok g)
    (hpos : 0 < g.memory_total) :
    g.memory_used ≤ g.memory_total := by
  unfold readDevice at hread
  cases hn : e.nameQ with
  | error u => rw [hn] at hread; exact absurd hread (by simp)
  | ok nm =>
    rw [hn] at hread
    cases hu : e.utilQ with
    | error u => rw [hu] at hread; exact absurd hread (by simp)
    | ok ut =>
      rw [hu] at hread
      cases hm : (reconcileMem nds i e.memStd).1 with
      | error u => rw [hm] at hread; exact absurd hread (by simp)
      | ok m =>
        rw [hm] at hread
        simp only [Except.ok.injEq] at hread
        rw [← hread]
        exact reconcile_le nds i e.memStd m hstd hnv hm

/-- C7 witness: the snapshot read from goodEnv has 3 MB used of a positive
24 MB total. -/
theorem mem_used_le_total_witness :
    gGood.memory_used ≤ gGood.memory_total :=
  mem_used_le_total none 0 goodEnv gGood
    (fun u t h => by
      simp only [goodEnv] at h
      cases h
      decide)
    (fun ds j u t h hg => Option.noConfusion h)
    rfl (by decide)

/-- C8: whichever way the sampler loop ends — the stop flag observed, a
cycle raising an unisolated error, or initialization failing — the trace
contains exactly one shutdown attempt and it is the final event; and the
try/except wrapper around the shutdown call completes normally for every
outcome of the underlying call. -/
theorem shutdown_exactly_once (initRes : Except Unit Nat)
    (cenvs : List CycleEnv) :
    (∃ pre, runMonitor initRes cenvs = pre ++ [Event.shutdownAttempt]
      ∧ countShutdown pre = 0)
    ∧ ∀ r : Except Unit Unit, safeShutdown r = Except.ok () := by
  constructor
  · cases initRes with
    | error u => exact ⟨[Event.initFail], rfl, rfl⟩
    | ok n =>
      obtain ⟨pre, h1, h2⟩ := monitorLoop_shutdown n cenvs
      exact ⟨Event.initOk :: pre, by simp [runMonitor, h1], h2⟩
  · intro r
    cases r <;> rfl

/-- C9: every successful device read yields fan_speed equal to the first
element of fan_speeds when that list is non-empty and 0 when it is empty
(headD 0), so the two fan fields never disagree. -/
theorem fan_scalar_consistent
    (nds : Option (List (Except Unit (Nat × Nat)))) (i : Nat) (e : DevEnv)
    (g : GPUInfo) (h : readDevice nds i e = Except.ok g) :
    g.fan_speed = g.fan_speeds.headD 0 := by
  unfold readDevice at h
  cases hn : e.nameQ with
  | error u => rw [hn] at h; exact absurd h (by simp)
  | ok nm =>
    rw [hn] at h
    cases hu : e.utilQ with
    | error u => rw [hu] at h; exact absurd h (by simp)
    | ok ut =>
      rw [hu] at h
      cases hm : (reconcileMem nds i e.memStd).1 with
      | error u => rw [hm] at h; exact absurd h (by simp)
      | ok m =>
        rw [hm] at h
        simp only [Except.ok.injEq] at h
        rw [← h]
        exact fanRead_head e.fan.numFans e.fan.fanV2 e.fan.legacy

/-- C9 witness: the snapshot read from goodEnv has fan_speed 40 matching
the head of fan_speeds = [40, 41]. -/
theorem fan_scalar_consistent_witness :
    gGood.fan_speed = gGood.fan_speeds.headD 0 :=
  fan_scalar_consistent none 0 goodEnv gGood rfl

/-- C10: update_data leaves base_temperature unchanged unless is_animating
toggles in that same call, in which case the baseline becomes the new
reading; and a call made while the history is empty (so fewer than the two
entries the guard requires, even after the append) changes neither the
flag nor the baseline. -/
theorem trend_baseline_frame (s : GPUCardState) (t b : Int) (a : Bool) :
    (update_data s t).base_temperature =
      (if (update_data s t).is_animating = s.is_animating
        then s.base_temperature else t)
    ∧ update_data ⟨[], b, a⟩ t = ⟨[t], b, a⟩ := by
  constructor
  · cases s with
    | mk h0 b0 a0 =>
      simp only [update_data]
      split
      · cases a0
        · rw [if_neg (by decide : ¬(false = true))]
          split <;> simp
        · rw [if_pos (rfl : true = true)]
          split <;> simp
      · simp
  · rfl

end GpuMon
